import Mathlib

/-!
Shallow embedding of the core of `financial_tracker.py` (Real5Head/Financial-Tracker):
the transaction data model, the balance/monthly-aggregate fold `calculate_stats`,
the sufficiency guards in the action methods, delete-by-id, the in-memory append
performed by `add_transaction_to_db`, and the net-worth line of `refresh_ui`.

Monetary values are Python floats in the source; they are modelled as exact
rationals (`ℚ`).  Python strings are modelled as `List Char`; the decimal
rendering used by `str(int)` / `f"{n:02d}"` / `strftime("%Y-%m-%d")` is modelled
by `decDigits` / `pad2` / `formatDate`.
-/

namespace FinTracker

/-- Expense currency: the combo box offers exactly "DZD (Cash)" and "USD (Online)". -/
inductive Currency
  | USD
  | DZD
deriving DecidableEq, Repr

/-- A calendar date as produced by `datetime.now()`: the source stores it as the
string `strftime("%Y-%m-%d")`; we keep the components and format on demand. -/
structure Date where
  year : Nat
  month : Nat
  day : Nat
deriving DecidableEq, Repr

/-- The income fee combo box: "No Fee", "Upwork (10%)", "Transaction Fee (Manual)"
(with a manually entered fee amount in the last case). -/
inductive FeePolicy
  | noFee
  | upworkPercent
  | manualFee (fee : ℚ)
deriving DecidableEq, Repr

/-- A transaction record, one of the four `t['type']` values constructed by
`add_income`, `add_expense`, `transfer_usd_to_dzd`, `transfer_paypal_to_bank`.
Field names follow the dictionary keys of the source. -/
inductive Txn
  | income (id : String) (date : Date) (category : String)
      (amount fee_amount net_amount : ℚ) (to_paypal : Bool)
  | expense (id : String) (date : Date) (category : String)
      (amount : ℚ) (currency : Currency)
  | transfer_usd_dzd (id : String) (date : Date)
      (amount_usd rate amount_dzd : ℚ)
  | transfer_paypal_bank (id : String) (date : Date)
      (amount_sent fee_paid amount_received : ℚ)
deriving DecidableEq, Repr

namespace Txn

/-- Accessor for `t['id']`. -/
def id : Txn → String
  | .income i _ _ _ _ _ _ => i
  | .expense i _ _ _ _ => i
  | .transfer_usd_dzd i _ _ _ _ => i
  | .transfer_paypal_bank i _ _ _ _ => i

/-- Accessor for `t['date']` (as a structured date; the stored string is `formatDate` of it). -/
def date : Txn → Date
  | .income _ d _ _ _ _ _ => d
  | .expense _ d _ _ _ => d
  | .transfer_usd_dzd _ d _ _ _ => d
  | .transfer_paypal_bank _ d _ _ _ => d

/-- Accessor for `t['amount']` (present on income and expense records; 0 otherwise). -/
def amount : Txn → ℚ
  | .income _ _ _ a _ _ _ => a
  | .expense _ _ _ a _ => a
  | _ => 0

/-- Accessor for `t['fee_amount']` (income records; 0 otherwise). -/
def fee_amount : Txn → ℚ
  | .income _ _ _ _ f _ _ => f
  | _ => 0

/-- Accessor for `t['net_amount']` (income records; 0 otherwise). -/
def net_amount : Txn → ℚ
  | .income _ _ _ _ _ n _ => n
  | _ => 0

/-- Accessor for `t['amount_usd']` (USD→DZD transfers; 0 otherwise). -/
def amount_usd : Txn → ℚ
  | .transfer_usd_dzd _ _ a _ _ => a
  | _ => 0

/-- Accessor for `t['amount_dzd']` (USD→DZD transfers; 0 otherwise). -/
def amount_dzd : Txn → ℚ
  | .transfer_usd_dzd _ _ _ _ a => a
  | _ => 0

/-- Accessor for `t['amount_sent']` (PayPal→bank transfers; 0 otherwise). -/
def amount_sent : Txn → ℚ
  | .transfer_paypal_bank _ _ a _ _ => a
  | _ => 0

/-- Accessor for `t['fee_paid']` (PayPal→bank transfers; 0 otherwise). -/
def fee_paid : Txn → ℚ
  | .transfer_paypal_bank _ _ _ f _ => f
  | _ => 0

/-- Accessor for `t['amount_received']` (PayPal→bank transfers; 0 otherwise). -/
def amount_received : Txn → ℚ
  | .transfer_paypal_bank _ _ _ _ a => a
  | _ => 0

end Txn

/-- Decimal rendering of a natural number, as Python `str(int)` produces it
(most significant digit first). -/
def decDigits (n : Nat) : List Char :=
  if _h : n < 10 then [Nat.digitChar n]
  else decDigits (n / 10) ++ [Nat.digitChar (n % 10)]
termination_by n
decreasing_by exact Nat.div_lt_self (by omega) (by omega)

/-- Python `f"{n:02d}"`: zero-pad to width 2. -/
def pad2 (n : Nat) : List Char :=
  if n < 10 then '0' :: decDigits n else decDigits n

/-- Model of `datetime.strftime("%Y-%m-%d")` for a date with a four-digit year. -/
def formatDate (d : Date) : List Char :=
  decDigits d.year ++ '-' :: (pad2 d.month ++ '-' :: pad2 d.day)

/-- Model of `get_monthly_key`: `f"{self.selected_year}-{self.selected_month:02d}"`. -/
def get_monthly_key (year month : Nat) : List Char :=
  decDigits year ++ '-' :: pad2 month

/-- The `stats` dictionary built by `calculate_stats`. -/
structure Stats where
  usd_savings : ℚ
  paypal_balance : ℚ
  dzd_cash : ℚ
  month_earned : ℚ
  month_spent_usd : ℚ
  month_spent_dzd : ℚ
deriving DecidableEq, Repr

/-- The initial value of the `stats` dictionary: all six entries `0.0`. -/
def Stats.init : Stats := ⟨0, 0, 0, 0, 0, 0⟩

/-- One iteration of the loop body of `calculate_stats`: first the balance
update keyed on `t['type']`, then the monthly accumulation guarded by
`t['date'].startswith(target_month)`. -/
def statsStep (target_month : List Char) (s : Stats) (t : Txn) : Stats :=
  let s1 : Stats :=
    match t with
    | .income _ _ _ _ _ net to_paypal =>
        if to_paypal then { s with paypal_balance := s.paypal_balance + net }
        else { s with usd_savings := s.usd_savings + net }
    | .expense _ _ _ amt curr =>
        match curr with
        | .USD => { s with usd_savings := s.usd_savings - amt }
        | .DZD => { s with dzd_cash := s.dzd_cash - amt }
    | .transfer_usd_dzd _ _ aUsd _ aDzd =>
        { s with usd_savings := s.usd_savings - aUsd, dzd_cash := s.dzd_cash + aDzd }
    | .transfer_paypal_bank _ _ aSent _ aRecv =>
        { s with paypal_balance := s.paypal_balance - aSent,
                 usd_savings := s.usd_savings + aRecv }
  if target_month.isPrefixOf (formatDate t.date) then
    match t with
    | .income _ _ _ _ _ net _ => { s1 with month_earned := s1.month_earned + net }
    | .expense _ _ _ amt curr =>
        match curr with
        | .USD => { s1 with month_spent_usd := s1.month_spent_usd + amt }
        | .DZD => { s1 with month_spent_dzd := s1.month_spent_dzd + amt }
    | _ => s1
  else s1

/-- Model of `calculate_stats`: a single pass over `self.data["transactions"]` starting
from the all-zero stats dictionary. -/
def calculate_stats (target_month : List Char) (ts : List Txn) : Stats :=
  ts.foldl (statsStep target_month) Stats.init

/-- The fee computed by `add_income`:
`float(fee_entry) if "Manual" in combo else (val*0.1 if "Upwork" in combo else 0)`. -/
def incomeFee (pol : FeePolicy) (val : ℚ) : ℚ :=
  match pol with
  | .manualFee f => f
  | .upworkPercent => val * 0.1
  | .noFee => 0

/-- The transaction dictionary constructed by `add_income` (no sufficiency
guard exists on this path). -/
def add_income (i : String) (d : Date) (src : String) (val : ℚ)
    (pol : FeePolicy) (to_paypal : Bool) : Txn :=
  Txn.income i d src val (incomeFee pol val) (val - incomeFee pol val) to_paypal

/-- Model of `add_expense`: the guard
`(curr=="USD" and s['usd_savings']<amt) or (curr=="DZD" and s['dzd_cash']<amt)`
aborts with "Insufficient Funds"; otherwise the expense record is built. -/
def add_expense (s : Stats) (i : String) (d : Date) (category : String)
    (amt : ℚ) (curr : Currency) : Option Txn :=
  if (curr = Currency.USD ∧ s.usd_savings < amt) ∨
     (curr = Currency.DZD ∧ s.dzd_cash < amt) then none
  else some (Txn.expense i d category amt curr)

/-- Model of `transfer_usd_to_dzd`: guard `self.calculate_stats()['usd_savings'] < usd`
aborts; otherwise the transfer record with `amount_dzd = usd*rate` is built. -/
def transfer_usd_to_dzd (s : Stats) (i : String) (d : Date)
    (usd rate : ℚ) : Option Txn :=
  if s.usd_savings < usd then none
  else some (Txn.transfer_usd_dzd i d usd rate (usd * rate))

/-- Model of `transfer_paypal_to_bank`: `fee = 5.0 if "Manual" in combo else 0`; guard
`paypal_balance < amt` aborts; otherwise `amount_received = amt - fee`. -/
def transfer_paypal_to_bank (s : Stats) (i : String) (d : Date)
    (amt : ℚ) (manualMethod : Bool) : Option Txn :=
  let fee : ℚ := if manualMethod then 5 else 0
  if s.paypal_balance < amt then none
  else some (Txn.transfer_paypal_bank i d amt fee (amt - fee))

/-- Model of `add_transaction_to_db`: the in-memory list is appended to unconditionally
(`self.data["transactions"].append(t)`) before the insert is attempted; the
boolean is the return value (`False` when persistence raised). -/
def add_transaction_to_db (ts : List Txn) (t : Txn) (persistOk : Bool) :
    List Txn × Bool :=
  (ts ++ [t], persistOk)

/-- Model of `delete_transaction`: the in-memory list becomes
`[t for t in self.data["transactions"] if t.get("id") != tid]`. -/
def delete_transaction (ts : List Txn) (tid : String) : List Txn :=
  ts.filter (fun t => t.id ≠ tid)

/-- The net-worth line of `refresh_ui`:
`stats['usd_savings'] + stats['paypal_balance'] + (stats['dzd_cash']/disp_rate if disp_rate > 0 else 0)`. -/
def total_nw (s : Stats) (disp_rate : ℚ) : ℚ :=
  s.usd_savings + s.paypal_balance +
    (if disp_rate > 0 then s.dzd_cash / disp_rate else 0)

/-! ### Per-transaction contributions of the fold -/

/-- Contribution of one transaction to `stats['usd_savings']`. -/
def usdContrib : Txn → ℚ
  | .income _ _ _ _ _ net to_paypal => if to_paypal then 0 else net
  | .expense _ _ _ amt curr => (match curr with | .USD => -amt | .DZD => 0)
  | .transfer_usd_dzd _ _ aUsd _ _ => -aUsd
  | .transfer_paypal_bank _ _ _ _ aRecv => aRecv

/-- Contribution of one transaction to `stats['paypal_balance']`. -/
def paypalContrib : Txn → ℚ
  | .income _ _ _ _ _ net to_paypal => if to_paypal then net else 0
  | .transfer_paypal_bank _ _ aSent _ _ => -aSent
  | _ => 0

/-- Contribution of one transaction to `stats['dzd_cash']`. -/
def dzdContrib : Txn → ℚ
  | .expense _ _ _ amt curr => (match curr with | .USD => 0 | .DZD => -amt)
  | .transfer_usd_dzd _ _ _ _ aDzd => aDzd
  | _ => 0

/-- Contribution of one transaction to `stats['month_earned']`. -/
def earnedContrib (target_month : List Char) (t : Txn) : ℚ :=
  if target_month.isPrefixOf (formatDate t.date) then
    match t with
    | .income _ _ _ _ _ net _ => net
    | _ => 0
  else 0

/-- Contribution of one transaction to `stats['month_spent_usd']`. -/
def spentUsdContrib (target_month : List Char) (t : Txn) : ℚ :=
  if target_month.isPrefixOf (formatDate t.date) then
    match t with
    | .expense _ _ _ amt .USD => amt
    | _ => 0
  else 0

/-- Contribution of one transaction to `stats['month_spent_dzd']`. -/
def spentDzdContrib (target_month : List Char) (t : Txn) : ℚ :=
  if target_month.isPrefixOf (formatDate t.date) then
    match t with
    | .expense _ _ _ amt .DZD => amt
    | _ => 0
  else 0

/-- One loop iteration adds exactly the six per-transaction contributions. -/
theorem statsStep_eq (target_month : List Char) (s : Stats) (t : Txn) :
    statsStep target_month s t =
      { usd_savings := s.usd_savings + usdContrib t,
        paypal_balance := s.paypal_balance + paypalContrib t,
        dzd_cash := s.dzd_cash + dzdContrib t,
        month_earned := s.month_earned + earnedContrib target_month t,
        month_spent_usd := s.month_spent_usd + spentUsdContrib target_month t,
        month_spent_dzd := s.month_spent_dzd + spentDzdContrib target_month t } := by
  cases t with
  | income i d c a f n p =>
      cases p <;>
        by_cases h : target_month.isPrefixOf (formatDate d) <;>
          simp [statsStep, usdContrib, paypalContrib, dzdContrib, earnedContrib,
            spentUsdContrib, spentDzdContrib, Txn.date, h, sub_eq_add_neg]
  | expense i d c a curr =>
      cases curr <;>
        by_cases h : target_month.isPrefixOf (formatDate d) <;>
          simp [statsStep, usdContrib, paypalContrib, dzdContrib, earnedContrib,
            spentUsdContrib, spentDzdContrib, Txn.date, h, sub_eq_add_neg]
  | transfer_usd_dzd i d aU r aD =>
      by_cases h : target_month.isPrefixOf (formatDate d) <;>
        simp [statsStep, usdContrib, paypalContrib, dzdContrib, earnedContrib,
          spentUsdContrib, spentDzdContrib, Txn.date, h, sub_eq_add_neg]
  | transfer_paypal_bank i d aS f aR =>
      by_cases h : target_month.isPrefixOf (formatDate d) <;>
        simp [statsStep, usdContrib, paypalContrib, dzdContrib, earnedContrib,
          spentUsdContrib, spentDzdContrib, Txn.date, h, sub_eq_add_neg]

/-- The whole fold, from an arbitrary starting value, sums the contributions. -/
theorem foldl_statsStep (target_month : List Char) (ts : List Txn) (s : Stats) :
    ts.foldl (statsStep target_month) s =
      { usd_savings := s.usd_savings + (ts.map usdContrib).sum,
        paypal_balance := s.paypal_balance + (ts.map paypalContrib).sum,
        dzd_cash := s.dzd_cash + (ts.map dzdContrib).sum,
        month_earned := s.month_earned + (ts.map (earnedContrib target_month)).sum,
        month_spent_usd :=
          s.month_spent_usd + (ts.map (spentUsdContrib target_month)).sum,
        month_spent_dzd :=
          s.month_spent_dzd + (ts.map (spentDzdContrib target_month)).sum } := by
  induction ts generalizing s with
  | nil => simp
  | cons t ts ih =>
      rw [List.foldl_cons, ih, statsStep_eq]
      simp [add_assoc]

/-- Unfolding of `calculate_stats` componentwise: each entry is the sum of the matching
per-transaction contributions. -/
theorem calculate_stats_eq (target_month : List Char) (ts : List Txn) :
    calculate_stats target_month ts =
      { usd_savings := (ts.map usdContrib).sum,
        paypal_balance := (ts.map paypalContrib).sum,
        dzd_cash := (ts.map dzdContrib).sum,
        month_earned := (ts.map (earnedContrib target_month)).sum,
        month_spent_usd := (ts.map (spentUsdContrib target_month)).sum,
        month_spent_dzd := (ts.map (spentDzdContrib target_month)).sum } := by
  rw [calculate_stats, foldl_statsStep]
  simp [Stats.init]

/-! ### Decimal rendering of the stored date strings -/

theorem decDigits_small {n : Nat} (h : n < 10) : decDigits n = [Nat.digitChar n] := by
  rw [decDigits]
  simp [h]

theorem decDigits_ge {n : Nat} (h : 10 ≤ n) :
    decDigits n = decDigits (n / 10) ++ [Nat.digitChar (n % 10)] := by
  rw [decDigits]
  simp [Nat.not_lt.2 h]

theorem decDigits_two {n : Nat} (h1 : 10 ≤ n) (h2 : n < 100) :
    decDigits n = [Nat.digitChar (n / 10), Nat.digitChar (n % 10)] := by
  rw [decDigits_ge h1, decDigits_small (by omega)]
  rfl

theorem decDigits_four {n : Nat} (h1 : 1000 ≤ n) (h2 : n ≤ 9999) :
    decDigits n = [Nat.digitChar (n / 1000), Nat.digitChar (n / 100 % 10),
      Nat.digitChar (n / 10 % 10), Nat.digitChar (n % 10)] := by
  rw [decDigits_ge (by omega), decDigits_ge (by omega),
    decDigits_two (by omega) (by omega)]
  have e1 : n / 10 / 10 = n / 100 := by omega
  have e2 : n / 100 / 10 = n / 1000 := by omega
  have e3 : n / 10 % 10 = n / 10 % 10 := rfl
  rw [e1, e2]
  rfl

theorem pad2_eq {n : Nat} (h : n < 100) :
    pad2 n = [Nat.digitChar (n / 10), Nat.digitChar (n % 10)] := by
  by_cases h1 : n < 10
  · rw [pad2, if_pos h1, decDigits_small h1]
    have e1 : n / 10 = 0 := by omega
    have e2 : n % 10 = n := by omega
    rw [e1, e2]
    rfl
  · rw [pad2, if_neg h1, decDigits_two (by omega) h]

/-- The function `Nat.digitChar` is injective on digits. -/
theorem digitChar_injOn : ∀ a < 10, ∀ b < 10,
    Nat.digitChar a = Nat.digitChar b → a = b := by decide

/-- The string-prefix month filter of `calculate_stats` coincides, on
well-formed dates (four-digit year, month below 100), with equality of the
year and month components. -/
theorem monthly_key_prefix_iff {y m : Nat} (hy1 : 1000 ≤ y) (hy2 : y ≤ 9999)
    (hm : m < 100) (d : Date) (hd1 : 1000 ≤ d.year) (hd2 : d.year ≤ 9999)
    (hd3 : d.month < 100) :
    (get_monthly_key y m).isPrefixOf (formatDate d) = true ↔
      (d.year = y ∧ d.month = m) := by
  rw [get_monthly_key, formatDate, decDigits_four hy1 hy2,
    decDigits_four hd1 hd2, pad2_eq hm, pad2_eq hd3]
  simp only [List.cons_append, List.nil_append, List.isPrefixOf,
    Bool.and_eq_true, beq_iff_eq, and_true]
  constructor
  · rintro ⟨c1, c2, c3, c4, -, c5, c6⟩
    have d1 := digitChar_injOn _ (by omega) _ (by omega) c1
    have d2 := digitChar_injOn _ (by omega) _ (by omega) c2
    have d3 := digitChar_injOn _ (by omega) _ (by omega) c3
    have d4 := digitChar_injOn _ (by omega) _ (by omega) c4
    have d5 := digitChar_injOn _ (by omega) _ (by omega) c5
    have d6 := digitChar_injOn _ (by omega) _ (by omega) c6
    omega
  · rintro ⟨e1, e2⟩
    rw [e1, e2]
    simp

/-! ### Transaction classifiers -/

/-- Income record? (`t['type'] == 'income'`). -/
def isIncome : Txn → Bool
  | .income _ _ _ _ _ _ _ => true
  | _ => false

/-- Income routed to the bank account (`to_paypal` false). -/
def isIncomeToBank : Txn → Bool
  | .income _ _ _ _ _ _ p => !p
  | _ => false

/-- Income routed to the PayPal account (`to_paypal` true). -/
def isIncomeToPaypal : Txn → Bool
  | .income _ _ _ _ _ _ p => p
  | _ => false

/-- USD expense record. -/
def isExpenseUsd : Txn → Bool
  | .expense _ _ _ _ .USD => true
  | _ => false

/-- DZD expense record. -/
def isExpenseDzd : Txn → Bool
  | .expense _ _ _ _ .DZD => true
  | _ => false

/-- USD→DZD transfer record. -/
def isTransferUsdDzd : Txn → Bool
  | .transfer_usd_dzd _ _ _ _ _ => true
  | _ => false

/-- PayPal→bank transfer record. -/
def isTransferPaypalBank : Txn → Bool
  | .transfer_paypal_bank _ _ _ _ _ => true
  | _ => false

theorem usdContrib_sum (ts : List Txn) :
    (ts.map usdContrib).sum =
      ((ts.filter isIncomeToBank).map Txn.net_amount).sum
      - ((ts.filter isExpenseUsd).map Txn.amount).sum
      - ((ts.filter isTransferUsdDzd).map Txn.amount_usd).sum
      + ((ts.filter isTransferPaypalBank).map Txn.amount_received).sum := by
  induction ts with
  | nil => simp
  | cons t rest ih =>
      cases t with
      | income i d c a f n p =>
          cases p <;>
            simp [usdContrib, isIncomeToBank, isExpenseUsd, isTransferUsdDzd,
              isTransferPaypalBank, List.filter_cons, Txn.net_amount, ih] <;> ring
      | expense i d c a curr =>
          cases curr <;>
            simp [usdContrib, isIncomeToBank, isExpenseUsd, isTransferUsdDzd,
              isTransferPaypalBank, List.filter_cons, Txn.amount, ih] <;> ring
      | transfer_usd_dzd i d aU r aD =>
          simp [usdContrib, isIncomeToBank, isExpenseUsd, isTransferUsdDzd,
            isTransferPaypalBank, List.filter_cons, Txn.amount_usd, ih]
          ring
      | transfer_paypal_bank i d aS f aR =>
          simp [usdContrib, isIncomeToBank, isExpenseUsd, isTransferUsdDzd,
            isTransferPaypalBank, List.filter_cons, Txn.amount_received, ih]
          ring

theorem paypalContrib_sum (ts : List Txn) :
    (ts.map paypalContrib).sum =
      ((ts.filter isIncomeToPaypal).map Txn.net_amount).sum
      - ((ts.filter isTransferPaypalBank).map Txn.amount_sent).sum := by
  induction ts with
  | nil => simp
  | cons t rest ih =>
      cases t with
      | income i d c a f n p =>
          cases p <;>
            simp [paypalContrib, isIncomeToPaypal, isTransferPaypalBank,
              List.filter_cons, Txn.net_amount, ih] <;> ring
      | expense i d c a curr =>
          cases curr <;>
            simp [paypalContrib, isIncomeToPaypal, isTransferPaypalBank,
              List.filter_cons, ih]
      | transfer_usd_dzd i d aU r aD =>
          simp [paypalContrib, isIncomeToPaypal, isTransferPaypalBank,
            List.filter_cons, ih]
      | transfer_paypal_bank i d aS f aR =>
          simp [paypalContrib, isIncomeToPaypal, isTransferPaypalBank,
            List.filter_cons, Txn.amount_sent, ih]
          ring

theorem dzdContrib_sum (ts : List Txn) :
    (ts.map dzdContrib).sum =
      ((ts.filter isTransferUsdDzd).map Txn.amount_dzd).sum
      - ((ts.filter isExpenseDzd).map Txn.amount).sum := by
  induction ts with
  | nil => simp
  | cons t rest ih =>
      cases t with
      | income i d c a f n p =>
          cases p <;>
            simp [dzdContrib, isTransferUsdDzd, isExpenseDzd,
              List.filter_cons, ih]
      | expense i d c a curr =>
          cases curr <;>
            simp [dzdContrib, isTransferUsdDzd, isExpenseDzd,
              List.filter_cons, Txn.amount, ih] <;> ring
      | transfer_usd_dzd i d aU r aD =>
          simp [dzdContrib, isTransferUsdDzd, isExpenseDzd,
            List.filter_cons, Txn.amount_dzd, ih]
          ring
      | transfer_paypal_bank i d aS f aR =>
          simp [dzdContrib, isTransferUsdDzd, isExpenseDzd,
            List.filter_cons, ih]

/-- C1: starting all three accounts at zero, `calculate_stats` returns
`usd_savings` (= bank_usd) as the net incomes routed to the bank minus USD
expenses minus USD sold to DZD plus PayPal transfer receipts; `paypal_balance`
as PayPal-routed net incomes minus PayPal transfer amounts sent; and
`dzd_cash` as DZD bought by transfers minus DZD expenses. -/
theorem calculate_stats_balances (target_month : List Char) (ts : List Txn) :
    (calculate_stats target_month ts).usd_savings =
      ((ts.filter isIncomeToBank).map Txn.net_amount).sum
      - ((ts.filter isExpenseUsd).map Txn.amount).sum
      - ((ts.filter isTransferUsdDzd).map Txn.amount_usd).sum
      + ((ts.filter isTransferPaypalBank).map Txn.amount_received).sum ∧
    (calculate_stats target_month ts).paypal_balance =
      ((ts.filter isIncomeToPaypal).map Txn.net_amount).sum
      - ((ts.filter isTransferPaypalBank).map Txn.amount_sent).sum ∧
    (calculate_stats target_month ts).dzd_cash =
      ((ts.filter isTransferUsdDzd).map Txn.amount_dzd).sum
      - ((ts.filter isExpenseDzd).map Txn.amount).sum := by
  rw [calculate_stats_eq]
  exact ⟨usdContrib_sum ts, paypalContrib_sum ts, dzdContrib_sum ts⟩

/-- C3: the three derived balances are invariant under any permutation of the
transaction sequence. -/
theorem calculate_stats_perm_invariant (target_month : List Char)
    {ts₁ ts₂ : List Txn} (h : ts₁.Perm ts₂) :
    (calculate_stats target_month ts₁).usd_savings =
      (calculate_stats target_month ts₂).usd_savings ∧
    (calculate_stats target_month ts₁).paypal_balance =
      (calculate_stats target_month ts₂).paypal_balance ∧
    (calculate_stats target_month ts₁).dzd_cash =
      (calculate_stats target_month ts₂).dzd_cash := by
  rw [calculate_stats_eq, calculate_stats_eq]
  exact ⟨(h.map usdContrib).sum_eq, (h.map paypalContrib).sum_eq,
    (h.map dzdContrib).sum_eq⟩

/-! ### Monthly aggregation (C4) -/

theorem map_sum_of_filter {p : Txn → Bool} {g f : Txn → ℚ} :
    ∀ ts : List Txn, (∀ t ∈ ts, f t = if p t then g t else 0) →
      (ts.map f).sum = ((ts.filter p).map g).sum := by
  intro ts h
  induction ts with
  | nil => simp
  | cons t rest ih =>
      rw [List.map_cons, List.sum_cons, h t (by simp), List.filter_cons,
        ih (fun u hu => h u (by simp [hu]))]
      by_cases hp : p t = true
      · simp [hp]
      · simp [hp]

theorem earnedContrib_eq {y m : Nat} (hy1 : 1000 ≤ y) (hy2 : y ≤ 9999)
    (hm : m < 100) {t : Txn} (hd1 : 1000 ≤ (Txn.date t).year)
    (hd2 : (Txn.date t).year ≤ 9999) (hd3 : (Txn.date t).month < 100) :
    earnedContrib (get_monthly_key y m) t =
      if isIncome t && ((Txn.date t).year == y) && ((Txn.date t).month == m) then
        Txn.net_amount t
      else 0 := by
  have hiff := monthly_key_prefix_iff hy1 hy2 hm (Txn.date t) hd1 hd2 hd3
  cases t with
  | income i d c a f n p =>
      simp only [Txn.date] at hiff ⊢
      by_cases hpre : (get_monthly_key y m).isPrefixOf (formatDate d) = true
      · obtain ⟨e1, e2⟩ := hiff.1 hpre
        simp [earnedContrib, Txn.date, isIncome, Txn.net_amount, hpre, e1, e2]
      · have hne : ¬(d.year = y ∧ d.month = m) := fun hc => hpre (hiff.2 hc)
        have hcond : ((d.year == y) && (d.month == m)) = false := by
          cases h1 : (d.year == y) <;> cases h2 : (d.month == m) <;> simp_all
        simp [earnedContrib, Txn.date, isIncome, hpre, hcond]
  | expense i d c a curr => simp [earnedContrib, isIncome]
  | transfer_usd_dzd i d aU r aD => simp [earnedContrib, isIncome]
  | transfer_paypal_bank i d aS f aR => simp [earnedContrib, isIncome]

theorem spentUsdContrib_eq {y m : Nat} (hy1 : 1000 ≤ y) (hy2 : y ≤ 9999)
    (hm : m < 100) {t : Txn} (hd1 : 1000 ≤ (Txn.date t).year)
    (hd2 : (Txn.date t).year ≤ 9999) (hd3 : (Txn.date t).month < 100) :
    spentUsdContrib (get_monthly_key y m) t =
      if isExpenseUsd t && ((Txn.date t).year == y) && ((Txn.date t).month == m) then
        Txn.amount t
      else 0 := by
  have hiff := monthly_key_prefix_iff hy1 hy2 hm (Txn.date t) hd1 hd2 hd3
  cases t with
  | income i d c a f n p => simp [spentUsdContrib, isExpenseUsd]
  | expense i d c a curr =>
      cases curr with
      | USD =>
          simp only [Txn.date] at hiff ⊢
          by_cases hpre : (get_monthly_key y m).isPrefixOf (formatDate d) = true
          · obtain ⟨e1, e2⟩ := hiff.1 hpre
            simp [spentUsdContrib, Txn.date, isExpenseUsd, Txn.amount, hpre, e1, e2]
          · have hne : ¬(d.year = y ∧ d.month = m) := fun hc => hpre (hiff.2 hc)
            have hcond : ((d.year == y) && (d.month == m)) = false := by
              cases h1 : (d.year == y) <;> cases h2 : (d.month == m) <;> simp_all
            simp [spentUsdContrib, Txn.date, isExpenseUsd, hpre, hcond]
      | DZD => simp [spentUsdContrib, isExpenseUsd]
  | transfer_usd_dzd i d aU r aD => simp [spentUsdContrib, isExpenseUsd]
  | transfer_paypal_bank i d aS f aR => simp [spentUsdContrib, isExpenseUsd]

theorem spentDzdContrib_eq {y m : Nat} (hy1 : 1000 ≤ y) (hy2 : y ≤ 9999)
    (hm : m < 100) {t : Txn} (hd1 : 1000 ≤ (Txn.date t).year)
    (hd2 : (Txn.date t).year ≤ 9999) (hd3 : (Txn.date t).month < 100) :
    spentDzdContrib (get_monthly_key y m) t =
      if isExpenseDzd t && ((Txn.date t).year == y) && ((Txn.date t).month == m) then
        Txn.amount t
      else 0 := by
  have hiff := monthly_key_prefix_iff hy1 hy2 hm (Txn.date t) hd1 hd2 hd3
  cases t with
  | income i d c a f n p => simp [spentDzdContrib, isExpenseDzd]
  | expense i d c a curr =>
      cases curr with
      | USD => simp [spentDzdContrib, isExpenseDzd]
      | DZD =>
          simp only [Txn.date] at hiff ⊢
          by_cases hpre : (get_monthly_key y m).isPrefixOf (formatDate d) = true
          · obtain ⟨e1, e2⟩ := hiff.1 hpre
            simp [spentDzdContrib, Txn.date, isExpenseDzd, Txn.amount, hpre, e1, e2]
          · have hne : ¬(d.year = y ∧ d.month = m) := fun hc => hpre (hiff.2 hc)
            have hcond : ((d.year == y) && (d.month == m)) = false := by
              cases h1 : (d.year == y) <;> cases h2 : (d.month == m) <;> simp_all
            simp [spentDzdContrib, Txn.date, isExpenseDzd, hpre, hcond]
  | transfer_usd_dzd i d aU r aD => simp [spentDzdContrib, isExpenseDzd]
  | transfer_paypal_bank i d aS f aR => simp [spentDzdContrib, isExpenseDzd]

/-- C4: restricted to the month key of a selected year/month, the monthly
aggregates count exactly the transactions whose structured date lies in that
calendar month: `month_earned` sums `net_amount` over matching incomes,
`month_spent_usd` / `month_spent_dzd` sum `amount` over matching expenses by
currency, and transfers contribute to none of the three. -/
theorem monthly_aggregates {y m : Nat} (hy1 : 1000 ≤ y) (hy2 : y ≤ 9999)
    (hm : m < 100) (ts : List Txn)
    (hts : ∀ t ∈ ts, 1000 ≤ (Txn.date t).year ∧ (Txn.date t).year ≤ 9999 ∧
      (Txn.date t).month < 100) :
    (calculate_stats (get_monthly_key y m) ts).month_earned =
      ((ts.filter
        (fun t => isIncome t && ((Txn.date t).year == y) &&
          ((Txn.date t).month == m))).map Txn.net_amount).sum ∧
    (calculate_stats (get_monthly_key y m) ts).month_spent_usd =
      ((ts.filter
        (fun t => isExpenseUsd t && ((Txn.date t).year == y) &&
          ((Txn.date t).month == m))).map Txn.amount).sum ∧
    (calculate_stats (get_monthly_key y m) ts).month_spent_dzd =
      ((ts.filter
        (fun t => isExpenseDzd t && ((Txn.date t).year == y) &&
          ((Txn.date t).month == m))).map Txn.amount).sum := by
  rw [calculate_stats_eq]
  refine ⟨?_, ?_, ?_⟩
  · exact map_sum_of_filter ts fun t ht =>
      earnedContrib_eq hy1 hy2 hm (hts t ht).1 (hts t ht).2.1 (hts t ht).2.2
  · exact map_sum_of_filter ts fun t ht =>
      spentUsdContrib_eq hy1 hy2 hm (hts t ht).1 (hts t ht).2.1 (hts t ht).2.2
  · exact map_sum_of_filter ts fun t ht =>
      spentDzdContrib_eq hy1 hy2 hm (hts t ht).1 (hts t ht).2.1 (hts t ht).2.2

/-! ### Sufficiency guards (C2) -/

theorem add_expense_usd_eq (s : Stats) (i : String) (d : Date) (c : String)
    (amt : ℚ) :
    add_expense s i d c amt Currency.USD =
      if s.usd_savings < amt then none
      else some (Txn.expense i d c amt Currency.USD) := by
  rw [add_expense]
  by_cases h : s.usd_savings < amt
  · rw [if_pos (Or.inl ⟨rfl, h⟩), if_pos h]
  · rw [if_neg ?_, if_neg h]
    rintro (⟨-, hc⟩ | ⟨hc, -⟩)
    · exact h hc
    · exact absurd hc (by decide)

theorem add_expense_dzd_eq (s : Stats) (i : String) (d : Date) (c : String)
    (amt : ℚ) :
    add_expense s i d c amt Currency.DZD =
      if s.dzd_cash < amt then none
      else some (Txn.expense i d c amt Currency.DZD) := by
  rw [add_expense]
  by_cases h : s.dzd_cash < amt
  · rw [if_pos (Or.inr ⟨rfl, h⟩), if_pos h]
  · rw [if_neg ?_, if_neg h]
    rintro (⟨hc, -⟩ | ⟨-, hc⟩)
    · exact absurd hc (by decide)
    · exact h hc

/-- C2: the guards accept a USD expense or a USD→DZD transfer exactly when
`usd_savings >= amount`, a DZD expense exactly when `dzd_cash >= amount`, and a
PayPal→bank transfer exactly when `paypal_balance >= amount_sent`; in
particular a DZD expense of 5000 is rejected at `dzd_cash = 3000` and accepted
at `dzd_cash = 5000`. -/
theorem sufficiency_guard (s : Stats) (i : String) (d : Date) (c : String)
    (amtU amtD usd rate amtP : ℚ) (mm : Bool) :
    ((add_expense s i d c amtU Currency.USD).isSome = true ↔
      amtU ≤ s.usd_savings) ∧
    ((add_expense s i d c amtD Currency.DZD).isSome = true ↔
      amtD ≤ s.dzd_cash) ∧
    ((transfer_usd_to_dzd s i d usd rate).isSome = true ↔
      usd ≤ s.usd_savings) ∧
    ((transfer_paypal_to_bank s i d amtP mm).isSome = true ↔
      amtP ≤ s.paypal_balance) ∧
    add_expense ⟨0, 0, 3000, 0, 0, 0⟩ i d c 5000 Currency.DZD = none ∧
    (add_expense ⟨0, 0, 5000, 0, 0, 0⟩ i d c 5000 Currency.DZD).isSome = true := by
  refine ⟨?_, ?_, ?_, ?_, ?_, ?_⟩
  · rw [add_expense_usd_eq]
    by_cases h : s.usd_savings < amtU
    · simp only [if_pos h, Option.isSome_none, Bool.false_eq_true, false_iff]
      exact not_le.mpr h
    · simp only [if_neg h, Option.isSome_some, true_iff]
      exact not_lt.1 h
  · rw [add_expense_dzd_eq]
    by_cases h : s.dzd_cash < amtD
    · simp only [if_pos h, Option.isSome_none, Bool.false_eq_true, false_iff]
      exact not_le.mpr h
    · simp only [if_neg h, Option.isSome_some, true_iff]
      exact not_lt.1 h
  · rw [transfer_usd_to_dzd]
    by_cases h : s.usd_savings < usd
    · simp only [if_pos h, Option.isSome_none, Bool.false_eq_true, false_iff]
      exact not_le.mpr h
    · simp only [if_neg h, Option.isSome_some, true_iff]
      exact not_lt.1 h
  · rw [transfer_paypal_to_bank]
    by_cases h : s.paypal_balance < amtP
    · simp only [if_pos h, Option.isSome_none, Bool.false_eq_true, false_iff]
      exact not_le.mpr h
    · simp only [if_neg h, Option.isSome_some, true_iff]
      exact not_lt.1 h
  · rw [add_expense_dzd_eq, if_pos (by decide)]
  · rw [add_expense_dzd_eq, if_neg (by decide)]
    rfl

/-! ### Fee policy (C6) -/

/-- C6: the fee of a constructed income is 0 under "No Fee", `0.10 * gross`
under "Upwork (10%)", and the entered value under the manual policy; the
stored `net_amount` is exactly `gross - fee`. -/
theorem income_fee_and_net (i : String) (d : Date) (c : String) (g f : ℚ)
    (pol : FeePolicy) (to_paypal : Bool) :
    (add_income i d c g FeePolicy.noFee to_paypal).fee_amount = 0 ∧
    (add_income i d c g FeePolicy.upworkPercent to_paypal).fee_amount =
      0.1 * g ∧
    (add_income i d c g (FeePolicy.manualFee f) to_paypal).fee_amount = f ∧
    (add_income i d c g pol to_paypal).net_amount =
      g - (add_income i d c g pol to_paypal).fee_amount := by
  refine ⟨rfl, ?_, rfl, ?_⟩
  · simp only [add_income, incomeFee, Txn.fee_amount]
    ring
  · cases pol <;>
      simp [add_income, incomeFee, Txn.fee_amount, Txn.net_amount]

/-! ### Net worth (C7) -/

/-- C7: the net-worth computation is a total function equal to
`usd_savings + paypal_balance + dzd_cash / rate` for a positive display rate,
and to `usd_savings + paypal_balance` (cash term dropped, no division) for a
non-positive one. -/
theorem total_nw_eq (s : Stats) (r : ℚ) :
    (0 < r → total_nw s r = s.usd_savings + s.paypal_balance + s.dzd_cash / r) ∧
    (r ≤ 0 → total_nw s r = s.usd_savings + s.paypal_balance) := by
  constructor
  · intro h
    rw [total_nw, if_pos h]
  · intro h
    rw [total_nw, if_neg (not_lt.2 h), add_zero]

/-- Witness for `total_nw_eq` at `rate = 200` and `rate = 0`. -/
theorem total_nw_eq_witness :
    ((0:ℚ) < 200 ∧
      total_nw ⟨1, 2, 600, 0, 0, 0⟩ 200 = 1 + 2 + 600 / 200) ∧
    ((0:ℚ) ≤ 0 ∧ total_nw ⟨1, 2, 600, 0, 0, 0⟩ 0 = 1 + 2) :=
  ⟨⟨by decide, (total_nw_eq ⟨1, 2, 600, 0, 0, 0⟩ 200).1 (by decide)⟩,
   ⟨by decide, (total_nw_eq ⟨1, 2, 600, 0, 0, 0⟩ 0).2 (by decide)⟩⟩

/-! ### Non-negativity of constructed monetary fields (C5) -/

/-- All monetary fields of a transaction record are non-negative. -/
def MoneyNonneg (t : Txn) : Prop :=
  0 ≤ Txn.amount t ∧ 0 ≤ Txn.fee_amount t ∧ 0 ≤ Txn.net_amount t ∧
  0 ≤ Txn.amount_usd t ∧ 0 ≤ Txn.amount_dzd t ∧
  0 ≤ Txn.amount_sent t ∧ 0 ≤ Txn.fee_paid t ∧ 0 ≤ Txn.amount_received t

/-- C5 fails on the code: `add_income` runs no sign check at all, so a gross
amount of −100 under the no-fee policy is accepted and yields a record whose
`amount` (and `net_amount`) is negative. -/
theorem add_income_accepts_negative :
    ¬ MoneyNonneg (add_income "a" ⟨2024, 1, 15⟩ "job" (-100)
        FeePolicy.noFee false) := by
  intro h
  have h1 := h.1
  norm_num [add_income, incomeFee, Txn.amount] at h1

/-- C5 amended: if every user-supplied numeric input is non-negative, a manual
income fee does not exceed the gross amount, and a manual-method PayPal
transfer sends at least the fixed 5.0 fee, then every monetary field of every
transaction the four construction operations accept is non-negative. -/
theorem constructed_money_nonneg (s : Stats) (i : String) (d : Date)
    (c : String) (g : ℚ) (pol : FeePolicy) (to_paypal : Bool) (hg : 0 ≤ g)
    (hpol : ∀ x, pol = FeePolicy.manualFee x → 0 ≤ x ∧ x ≤ g)
    (amtE : ℚ) (curr : Currency) (hE : 0 ≤ amtE)
    (usd rate : ℚ) (hU : 0 ≤ usd) (hrate : 0 ≤ rate)
    (amtP : ℚ) (mm : Bool) (hP : 0 ≤ amtP) (hmm : mm = true → 5 ≤ amtP) :
    MoneyNonneg (add_income i d c g pol to_paypal) ∧
    (∀ t, add_expense s i d c amtE curr = some t → MoneyNonneg t) ∧
    (∀ t, transfer_usd_to_dzd s i d usd rate = some t → MoneyNonneg t) ∧
    (∀ t, transfer_paypal_to_bank s i d amtP mm = some t → MoneyNonneg t) := by
  refine ⟨?_, ?_, ?_, ?_⟩
  · have hfee : 0 ≤ incomeFee pol g ∧ incomeFee pol g ≤ g := by
      cases pol with
      | noFee => exact ⟨le_refl 0, hg⟩
      | upworkPercent =>
          constructor
          · exact mul_nonneg hg (by norm_num)
          · rw [incomeFee]
            nlinarith
      | manualFee x => exact hpol x rfl
    rw [add_income]
    refine ⟨hg, hfee.1, by rw [Txn.net_amount]; linarith [hfee.2],
      le_refl 0, le_refl 0, le_refl 0, le_refl 0, le_refl 0⟩
  · intro t ht
    rw [add_expense] at ht
    split_ifs at ht
    obtain rfl : Txn.expense i d c amtE curr = t := by injection ht
    exact ⟨hE, le_refl 0, le_refl 0, le_refl 0, le_refl 0, le_refl 0,
      le_refl 0, le_refl 0⟩
  · intro t ht
    rw [transfer_usd_to_dzd] at ht
    split_ifs at ht
    obtain rfl : Txn.transfer_usd_dzd i d usd rate (usd * rate) = t := by
      injection ht
    exact ⟨le_refl 0, le_refl 0, le_refl 0, hU, mul_nonneg hU hrate,
      le_refl 0, le_refl 0, le_refl 0⟩
  · intro t ht
    rw [transfer_paypal_to_bank] at ht
    split_ifs at ht with hbal hfee
    · obtain rfl : Txn.transfer_paypal_bank i d amtP 5 (amtP - 5) = t := by
        injection ht
      have h5 := hmm hfee
      exact ⟨le_refl 0, le_refl 0, le_refl 0, le_refl 0, le_refl 0, hP,
        by norm_num [Txn.fee_paid], by rw [Txn.amount_received]; linarith⟩
    · obtain rfl : Txn.transfer_paypal_bank i d amtP 0 (amtP - 0) = t := by
        injection ht
      exact ⟨le_refl 0, le_refl 0, le_refl 0, le_refl 0, le_refl 0, hP,
        by norm_num [Txn.fee_paid], by rw [Txn.amount_received]; simpa using hP⟩

/-- Witness for `constructed_money_nonneg` at concrete inputs. -/
theorem constructed_money_nonneg_witness :
    ((0:ℚ) ≤ 100 ∧ (0:ℚ) ≤ 10 ∧ (10:ℚ) ≤ 100 ∧ (0:ℚ) ≤ 50 ∧ (0:ℚ) ≤ 20 ∧
      (0:ℚ) ≤ 200 ∧ (0:ℚ) ≤ 40 ∧ (5:ℚ) ≤ 40) ∧
    MoneyNonneg (add_income "a" ⟨2024, 1, 2⟩ "src" 100
      (FeePolicy.manualFee 10) false) :=
  ⟨⟨by decide, by decide, by decide, by decide, by decide, by decide,
    by decide, by decide⟩,
   (constructed_money_nonneg ⟨0, 0, 0, 0, 0, 0⟩ "a" ⟨2024, 1, 2⟩ "src" 100
      (FeePolicy.manualFee 10) false (by decide)
      (fun x hx => by
        injection hx with h
        subst h
        exact ⟨by decide, by decide⟩)
      50 Currency.USD (by decide) 20 200 (by decide) (by decide)
      40 true (by decide) (fun _ => by decide)).1⟩

/-! ### Persistence-failure behaviour of the append (C8) -/

/-- C8 (evidence of the bug): with a failing store, appending to the empty
in-memory ledger still leaves the transaction in the list (`add_transaction_to_db`
appends before attempting the insert and never rolls back), so the in-memory
list does not equal its pre-append value. -/
theorem append_failure_keeps_txn :
    (add_transaction_to_db [] (Txn.expense "e1" ⟨2024, 1, 1⟩ "c" 10
        Currency.USD) false).1 =
      [Txn.expense "e1" ⟨2024, 1, 1⟩ "c" 10 Currency.USD] ∧
    (add_transaction_to_db [] (Txn.expense "e1" ⟨2024, 1, 1⟩ "c" 10
        Currency.USD) false).2 = false ∧
    (add_transaction_to_db [] (Txn.expense "e1" ⟨2024, 1, 1⟩ "c" 10
        Currency.USD) false).1 ≠ ([] : List Txn) := by
  refine ⟨rfl, rfl, ?_⟩
  simp [add_transaction_to_db]

/-! ### Append/delete round trip (C9) -/

/-- C9: appending a transaction whose id does not already occur and then
deleting by that id leaves all three derived balances unchanged. -/
theorem append_delete_round_trip (target_month : List Char) (ts : List Txn)
    (t : Txn) (h : Txn.id t ∉ ts.map Txn.id) :
    (calculate_stats target_month
        (delete_transaction (ts ++ [t]) (Txn.id t))).usd_savings =
      (calculate_stats target_month ts).usd_savings ∧
    (calculate_stats target_month
        (delete_transaction (ts ++ [t]) (Txn.id t))).paypal_balance =
      (calculate_stats target_month ts).paypal_balance ∧
    (calculate_stats target_month
        (delete_transaction (ts ++ [t]) (Txn.id t))).dzd_cash =
      (calculate_stats target_month ts).dzd_cash := by
  have he : delete_transaction (ts ++ [t]) (Txn.id t) = ts := by
    rw [delete_transaction, List.filter_append]
    have h1 : ts.filter (fun u => Txn.id u ≠ Txn.id t) = ts :=
      List.filter_eq_self.2 (fun u hu => by
        simp only [ne_eq, decide_eq_true_eq]
        intro hc
        exact h (hc ▸ List.mem_map_of_mem Txn.id hu))
    have h2 : [t].filter (fun u => Txn.id u ≠ Txn.id t) = [] := by simp
    rw [h1, h2, List.append_nil]
  rw [he]
  exact ⟨rfl, rfl, rfl⟩

/-! ### Delete-by-id (C10) -/

/-- C10: delete-by-id keeps exactly the transactions with a different id, in
their original relative order; with no matching id the ledger, and hence every
derived statistic, is unchanged. -/
theorem delete_transaction_spec (tid : String) (ts : List Txn) :
    List.Sublist (delete_transaction ts tid) ts ∧
    (∀ t ∈ delete_transaction ts tid, Txn.id t ≠ tid) ∧
    (∀ t ∈ ts, Txn.id t ≠ tid → t ∈ delete_transaction ts tid) ∧
    ((∀ t ∈ ts, Txn.id t ≠ tid) →
      delete_transaction ts tid = ts ∧
      ∀ target_month, calculate_stats target_month (delete_transaction ts tid) =
        calculate_stats target_month ts) := by
  refine ⟨by rw [delete_transaction]; exact List.filter_sublist _, ?_, ?_, ?_⟩
  · intro t ht
    rw [delete_transaction, List.mem_filter] at ht
    simpa using ht.2
  · intro t ht hne
    rw [delete_transaction, List.mem_filter]
    exact ⟨ht, by simpa using hne⟩
  · intro hall
    have he : delete_transaction ts tid = ts :=
      List.filter_eq_self.2 (fun u hu => by simpa using hall u hu)
    exact ⟨he, fun key => by rw [he]⟩

/-! ### Concrete sample transactions for witnesses -/

/-- A March 2024 income of 100 USD routed to the bank. -/
def sampleIncomeMarch : Txn := Txn.income "a" ⟨2024, 3, 31⟩ "job" 100 0 100 false

/-- A February 2024 income. -/
def sampleIncomeFeb : Txn := Txn.income "b" ⟨2024, 2, 28⟩ "job" 20 0 20 true

/-- An April 2024 income. -/
def sampleIncomeApr : Txn := Txn.income "c" ⟨2024, 4, 1⟩ "job" 30 0 30 false

/-- A DZD expense. -/
def sampleExpenseDzd : Txn := Txn.expense "d" ⟨2024, 3, 5⟩ "food" 40 Currency.DZD

/-- Witness for `calculate_stats_perm_invariant` on a concrete swap. -/
theorem calculate_stats_perm_invariant_witness :
    List.Perm [sampleIncomeMarch, sampleExpenseDzd]
      [sampleExpenseDzd, sampleIncomeMarch] ∧
    (calculate_stats [] [sampleIncomeMarch, sampleExpenseDzd]).usd_savings =
      (calculate_stats [] [sampleExpenseDzd, sampleIncomeMarch]).usd_savings ∧
    (calculate_stats [] [sampleIncomeMarch, sampleExpenseDzd]).paypal_balance =
      (calculate_stats [] [sampleExpenseDzd, sampleIncomeMarch]).paypal_balance ∧
    (calculate_stats [] [sampleIncomeMarch, sampleExpenseDzd]).dzd_cash =
      (calculate_stats [] [sampleExpenseDzd, sampleIncomeMarch]).dzd_cash :=
  ⟨List.Perm.swap sampleExpenseDzd sampleIncomeMarch [],
   calculate_stats_perm_invariant []
     (List.Perm.swap sampleExpenseDzd sampleIncomeMarch [])⟩

/-- Witness for `monthly_aggregates` for 2024-03 over transactions dated
2024-03-31 (included), 2024-02-28 and 2024-04-01 (both excluded). -/
theorem monthly_aggregates_witness :
    (1000 ≤ 2024 ∧ 2024 ≤ 9999 ∧ 3 < 100 ∧
      (∀ t ∈ [sampleIncomeMarch, sampleIncomeFeb, sampleIncomeApr],
        1000 ≤ (Txn.date t).year ∧ (Txn.date t).year ≤ 9999 ∧
          (Txn.date t).month < 100)) ∧
    (calculate_stats (get_monthly_key 2024 3)
        [sampleIncomeMarch, sampleIncomeFeb, sampleIncomeApr]).month_earned =
      (([sampleIncomeMarch, sampleIncomeFeb, sampleIncomeApr].filter
        (fun t => isIncome t && ((Txn.date t).year == 2024) &&
          ((Txn.date t).month == 3))).map Txn.net_amount).sum ∧
    ([sampleIncomeMarch, sampleIncomeFeb, sampleIncomeApr].filter
        (fun t => isIncome t && ((Txn.date t).year == 2024) &&
          ((Txn.date t).month == 3))) = [sampleIncomeMarch] :=
  ⟨⟨by decide, by decide, by decide, by decide⟩,
   (monthly_aggregates (by decide) (by decide) (by decide)
      [sampleIncomeMarch, sampleIncomeFeb, sampleIncomeApr] (by decide)).1,
   by decide⟩

/-- Witness for `append_delete_round_trip` on a concrete ledger. -/
theorem append_delete_round_trip_witness :
    Txn.id sampleExpenseDzd ∉ List.map Txn.id [sampleIncomeMarch] ∧
    (calculate_stats []
        (delete_transaction ([sampleIncomeMarch] ++ [sampleExpenseDzd])
          (Txn.id sampleExpenseDzd))).usd_savings =
      (calculate_stats [] [sampleIncomeMarch]).usd_savings :=
  ⟨by decide, (append_delete_round_trip [] [sampleIncomeMarch]
      sampleExpenseDzd (by decide)).1⟩

/-- Witness for `delete_transaction_spec`: deleting an id that occurs nowhere
leaves the ledger unchanged. -/
theorem delete_transaction_spec_witness :
    (∀ t ∈ [sampleIncomeMarch], Txn.id t ≠ "z") ∧
    delete_transaction [sampleIncomeMarch] "z" = [sampleIncomeMarch] :=
  ⟨by decide, ((delete_transaction_spec "z" [sampleIncomeMarch]).2.2.2
      (by decide)).1⟩

end FinTracker
